import Mathlib

/-!
Shallow embedding of the melosynth core (src/Sompyler/score/measure.py,
src/Sompyler/synthesizer/shape/point.py, src/modulation.py) and proofs about it.
Python floats are modelled as real numbers, Python exceptions as `Except PyError`.
-/

namespace Melosynth

/-- The Python exception classes that the embedded code can raise.  `exceptionBase`
stands for a plain `Exception`. -/
inductive PyError where
  | nameError
  | typeError
  | attributeError
  | valueError
  | runtimeError
  | exceptionBase
deriving DecidableEq

/-- Python 3 `round` on a float: round half to even (banker's rounding). -/
noncomputable def pyRound (x : ℝ) : ℤ :=
  if Int.fract x = 1 / 2 then
    (if ⌊x⌋ % 2 = 0 then ⌊x⌋ else ⌊x⌋ + 1)
  else
    round x

/-- Interface of `Stressor` as consumed by measure.py.  The class itself lives in
src/Sompyler/score/stressor.py, which is not among the sources; only the two
members measure.py reads are modelled, as abstract data: `cumlen` (the cumulative
tick length of the pattern) and `of` (the weight lookup, called either with a
single rounded-progress argument — second argument `none` — or with a tick offset
together with a set of known values). -/
structure Stressor where
  cumlen : ℝ
  of : ℤ → Option (Finset ℕ) → ℝ

/-- The shapes of value that reach `stress_range` (measure.py lines 4-13):
a Python int, a string of the form a-b (carried here as the two integers that
`int(x) for x in stress.split` produces), a tuple pair, or a list pair. -/
inductive StressArg where
  | int (n : ℤ)
  | str (a b : ℤ)
  | tup (a b : ℝ)
  | lst (a b : ℝ)

/-- Python truthiness of a `StressArg`: the int 0 is falsy, a non-empty string,
tuple or list is truthy. -/
def StressArg.truthy : StressArg → Bool
  | .int n => n != 0
  | _ => true

/-- measure.py lines 4-13, `stress_range`.  An int returns `(stress, 1)`.
A non-tuple is parsed (strings are split on the dash into ints) and
`(stress[0], stress[1] * 1.0 / stress[0])` is returned.  A tuple satisfies
neither `isinstance(stress, int)` nor `not isinstance(stress, tuple)`, so the
function falls off its end and returns Python `None`, modelled as `none`. -/
noncomputable def stress_range : StressArg → Option (ℝ × ℝ)
  | .int n => some ((n : ℝ), 1)
  | .str a b => some ((a : ℝ), (b : ℝ) * 1 / (a : ℝ))
  | .lst a b => some (a, b * 1 / a)
  | .tup _ _ => none

/-- measure.py class `Measure`.  The `structure` and `voices` slots (the raw
score payload consumed only by `Measure.__iter__`) are not modelled; the claims
about iteration concern `VoiceBoundMeasure.__iter__`, which is modelled below on
its own chord data.  A stress bound is `Option (ℝ × ℝ)` because `stress_range`
can return Python `None` (tuple input), which `__init__` stores unchecked. -/
structure Measure where
  seconds_per_tick : ℝ × ℝ
  stressor : Stressor
  offset : ℝ
  length : ℝ
  measure_cut : ℤ
  lower_stress_bound : Option (ℝ × ℝ)
  upper_stress_bound : Option (ℝ × ℝ)

/-- The inner function `seconds` of `Measure.calculate_seconds_from_ticks`
(measure.py lines 102-108): `ticks += offset`, then
`spt * (ticks if spt_factor == 1 else (spt_factor ** (ticks*exp_div) - 1) /
(spt_factor ** exp_div - 1))`, with `exp_div = 1 / stressor.cumlen`. -/
noncomputable def secondsAux (spt spt_factor exp_div offset : ℝ) (ticks : ℝ) : ℝ :=
  let t := ticks + offset
  spt * (if spt_factor = 1 then t else
    (spt_factor ^ (t * exp_div) - 1) / (spt_factor ^ exp_div - 1))

/-- measure.py lines 87-115, `Measure.calculate_seconds_from_ticks`.
The guard `offset > self.length` executes `raise ValueError("Offset exceeding "
+ max_offset)`, but `max_offset` is an unbound name, so building the message
raises `NameError` before any `ValueError` exists.  The guard
`offset < self.measure_cut > 0` executes `raise ValueError("Offset too low, must
be at least" + self.measure_cut)`, and concatenating a str with an int raises
`TypeError`.  When a truthy `length` is given the pair
`(offset_s, seconds(length) - offset_s)` is returned, else only `offset_s`
(a falsy `length` — `None` or `0` — takes the else branch). -/
noncomputable def Measure.calculate_seconds_from_ticks
    (m : Measure) (offset : ℝ) (length : Option ℝ) :
    Except PyError (ℝ × Option ℝ) :=
  if offset > m.length then
    .error .nameError
  else if offset < (m.measure_cut : ℝ) ∧ 0 < m.measure_cut then
    .error .typeError
  else
    let exp_div := 1 / m.stressor.cumlen
    let spt := m.seconds_per_tick.1
    let spt_factor := m.seconds_per_tick.2
    let seconds := fun ticks => secondsAux spt spt_factor exp_div offset ticks
    let offset_s := seconds 0
    match length with
    | some l =>
        if l = 0 then .ok (offset_s, none)
        else .ok (offset_s, some (seconds l - offset_s))
    | none => .ok (offset_s, none)

/-- measure.py lines 118-130, `Measure.stress_of_tick`.
`offset = 1.0 * tick / self.stressor.cumlen`; each stress bound is unpacked as
`base, factor` — unpacking a `None` bound raises `TypeError`; the result is
`ls * (us/ls) ** self.stressor.of(round(offset))`. -/
noncomputable def Measure.stress_of_tick (m : Measure) (tick : ℝ) : Except PyError ℝ :=
  let offset := 1 * tick / m.stressor.cumlen
  match m.lower_stress_bound, m.upper_stress_bound with
  | some (ls0, ls_factor), some (us0, us_factor) =>
      let ls := ls0 * ls_factor ^ offset
      let us := us0 * us_factor ^ offset
      .ok (ls * (us / ls) ^ (m.stressor.of (pyRound offset) none))
  | _, _ => .error .typeError

/-- measure.py lines 23-85, `Measure.__init__` for a measure with a previous
sibling (`previous` is not `None`, so the tempo check on line 39 is skipped).
`measure_cut or 0` is `Option.getD 0` (`0 or 0` is `0` either way).
`ticks_per_minute` is modelled for the `None` (inherit) and int cases of
lines 49-52; the str branch (lines 53-64) assigns its parse to the misspelled
`tickets_per_minute` and then indexes the original string, and the tuple case
leaves `seconds_per_tick` unassigned — no claim touches those inputs, so they
are left out of the model.  `stress_pattern` is carried as an already-built
`Stressor` because `Stressor(...)` is constructed in stressor.py, which is not
among the sources.  Bounds go through `stress_range` when the given value is
truthy, else they are inherited from `previous`. -/
noncomputable def Measure.mkNext (previous : Measure)
    (measure_cut : Option ℤ) (stress_pattern : Option Stressor)
    (ticks_per_minute : Option ℤ)
    (lower_stress_bound upper_stress_bound : Option StressArg) :
    Except PyError Measure :=
  let cut := measure_cut.getD 0
  match previous.calculate_seconds_from_ticks previous.length none with
  | .error e => .error e
  | .ok s =>
      let offset := previous.offset + s.1
      let stressor := stress_pattern.getD previous.stressor
      let seconds_per_tick :=
        match ticks_per_minute with
        | none => previous.seconds_per_tick
        | some n => ((60 : ℝ) / (n : ℝ), 1)
      let lower :=
        match lower_stress_bound with
        | some sa => if sa.truthy then stress_range sa else previous.lower_stress_bound
        | none => previous.lower_stress_bound
      let upper :=
        match upper_stress_bound with
        | some sa => if sa.truthy then stress_range sa else previous.upper_stress_bound
        | none => previous.upper_stress_bound
      let length := stressor.cumlen - (if cut < 0 then ((|cut| : ℤ) : ℝ) else 0)
      .ok ⟨seconds_per_tick, stressor, offset, length, cut, lower, upper⟩

/-! ## point.py -/

/-- point.py: a constructible point value.  `Point.__init__` assigns the `x`
and `y` slots, and `Point2D` adds nothing, so `Point(x, y)` and `Point2D(x, y)`
both yield such a value.  `Point3D` instances, on the other hand, CANNOT
exist: `Point3D.__init__` always raises (see `Point3D_new` below), so the
reachable value space of the module is exactly these 2-D points. -/
structure Point where
  x : ℝ
  y : ℝ

/-- point.py lines 44-49, `Point3D.__init__` invoked as
`Point3D(x, y, symp=s)`.  `kwargs.pop` retrieves the envelope; a falsy `symp`
(Python `None`, modelled `none`) raises the explicit
`AttributeError("Missing an envelope for Point3D instance")`.  Otherwise
`super(Point, self).__init__(*args, **kwargs)` starts the method lookup AFTER
`Point`, handing both coordinates to `object.__init__`, which raises
`TypeError` — and even with no positional arguments the following
`self.symp = symp` would raise `AttributeError`, since the declared slots are
`__slots__ = ['env']` on `Point3D` and `['x', 'y']` on `Point`, so no `symp`
slot (and no instance dict) exists.  Construction therefore never succeeds and
no branch returns a value. -/
def Point3D_new (_x _y : ℝ) (symp : Option Point) : Except PyError Point :=
  match symp with
  | none => .error .attributeError
  | some _ => .error .typeError

/-- point.py lines 10-12, `Point.distance`. -/
noncomputable def Point.distance (a b : Point) : ℝ :=
  Real.sqrt ((b.y - a.y) ^ 2 + (b.x - a.x) ^ 2)

/-- point.py lines 14-29, `Point.weighted_average`, over the constructible
value space.  Because no `Point3D` instance exists (see `Point3D_new`), the
two `isinstance(_, Point3D)` tests are false on every call that can occur, so
`symp` is `None` (falsy) and the else branch returns
`Point2D(x, y)` with the linearly interpolated coordinates. -/
noncomputable def Point.weighted_average (a : Point) (dist : ℝ) (b : Point) : Point :=
  { x := (1 - dist) * a.x + dist * b.x
    y := (1 - dist) * a.y + dist * b.y }

/-- What `__getitem__` produces: a float slot or — for an index above 1 — the
`IndexError` CLASS returned as an ordinary value (point.py line 35 reads
`return IndexError`, not `raise`). -/
inductive ItemResult where
  | val (r : ℝ)
  | indexErrorReturned

/-- point.py lines 34-36, `Point.__getitem__` (shared by `Point2D`; the
`Point3D` override on lines 54-55 can never run, no instance existing):
`if n > 1: return IndexError` — the class object is returned, nothing is
raised — else `self.y if n else self.x` (any non-zero index is truthy and
selects `y`). -/
def Point.getitem (p : Point) (n : ℤ) : ItemResult :=
  if n > 1 then .indexErrorReturned
  else if n = 0 then .val p.x else .val p.y

/-- point.py line 38, `Point.__len__` (the `Point3D` override on line 57 is
likewise dead code). -/
def Point.len (_ : Point) : ℕ := 2

/-! ## modulation.py -/

/-- modulation.py class `Modulation`.  `frequency`/`factor` model the instance
attributes: `__init__` assigns exactly one of them (`none` means the attribute
was never assigned, so reading it raises `AttributeError`). -/
structure Modulation where
  base_share : ℝ
  mod_share : ℝ
  frequency : Option ℝ
  factor : Option ℝ
  shift : ℝ
  overdrive : Bool
  function : ℝ → ℝ → ℝ → ℝ

/-- modulation.py lines 7-21, `Modulation.__init__`, parameters in source
order.  `if frequency:` — a `None` or `0.0` frequency is falsy; when truthy,
`self.frequency = frequency * (factor or 1)` (a `None` or `0.0` factor
contributes 1).  `elif factor:` stores the factor alone.  Else a plain
`Exception` is raised.  `self.function = func or` the default sine lambda. -/
noncomputable def Modulation.init (frequency : Option ℝ) (base_share mod_share : ℝ)
    (shift : ℝ) (overdrive : Bool) (factor : Option ℝ)
    (func : Option (ℝ → ℝ → ℝ → ℝ)) : Except PyError Modulation :=
  let fn := func.getD fun f l s => Real.sin (2 * Real.pi * f * l + s)
  match frequency with
  | some v =>
      if v = 0 then
        match factor with
        | some fa =>
            if fa = 0 then .error .exceptionBase
            else .ok ⟨base_share, mod_share, none, some fa, shift, overdrive, fn⟩
        | none => .error .exceptionBase
      else
        .ok ⟨base_share, mod_share,
          some (v * (match factor with
            | some fa => if fa = 0 then 1 else fa
            | none => 1)),
          none, shift, overdrive, fn⟩
  | none =>
      match factor with
      | some fa =>
          if fa = 0 then .error .exceptionBase
          else .ok ⟨base_share, mod_share, none, some fa, shift, overdrive, fn⟩
      | none => .error .exceptionBase

/-- modulation.py line 40: `f = (self.frequency or self.factor * freq)`.
Reading an unassigned attribute raises `AttributeError`; if `self.frequency`
is assigned but `0.0` (falsy) the `or` falls through to `self.factor * freq`,
where `self.factor` again raises `AttributeError` if unassigned and
multiplying by a `None` `freq` raises `TypeError`. -/
noncomputable def Modulation.resolve_frequency (mo : Modulation) (freq : Option ℝ) :
    Except PyError ℝ :=
  match mo.frequency with
  | none => .error .attributeError
  | some v =>
      if v = 0 then
        match mo.factor with
        | none => .error .attributeError
        | some fa =>
            match freq with
            | none => .error .typeError
            | some fr => .ok (fa * fr)
      else .ok v

/-- modulation.py lines 23-45, `Modulation.modulate`, modelled pointwise: the
numpy array `iseq` broadcasts elementwise, so the model takes one sample
position `l`.  `o = (m + b) / (2*b) + 0.5` under overdrive, else 1; the result
is `o * (m * (self.function(f, l, s) + 1) / 2 + b) / (m + b)`. -/
noncomputable def Modulation.modulate (mo : Modulation) (l : ℝ) (freq : Option ℝ) :
    Except PyError ℝ :=
  (mo.resolve_frequency freq).map fun f =>
    let b := mo.base_share
    let m := mo.mod_share
    let s := mo.shift
    let o := if mo.overdrive then (m + b) / (2 * b) + 0.5 else 1
    o * (m * (mo.function f l s + 1) / 2 + b) / (m + b)

/-! ## VoiceBoundMeasure (measure.py lines 154-198) -/

/-- A chord slot in the authored structure: either a single note value or a
list of simultaneous notes.  Note payloads are modelled as naturals. -/
inductive Payload where
  | single (note : ℕ)
  | chordList (notes : List ℕ)

/-- measure.py class `VoiceBoundMeasure`, the fields its `__iter__` reads.
`chords` is the authored mapping tick offset -> payload, kept as an
insertion-ordered association list (Python dicts preserve insertion order). -/
structure VoiceBoundMeasure where
  measure : Measure
  voice : ℕ
  stressor : Stressor
  lower_stress_bound : Option (ℝ × ℝ)
  upper_stress_bound : Option (ℝ × ℝ)
  chords : List (ℕ × Payload)

/-- A record of the arguments `VoiceBoundMeasure.__iter__` passes to
`Chord(...)` (the `Chord` class lives in src/Sompyler/score/chord.py, which is
not among the sources, so the emitted event is modelled as the argument
tuple; the bound method `calc_span`, identical for every event of the
timeline, is not carried). -/
structure ChordEvent where
  measure_offset : ℝ
  offset : ℕ
  voice : ℕ
  stress : ℝ
  notes : List ℕ

/-- measure.py line 186: `all_offsets = set(self.chords.values())` — the set is
built from the dict VALUES (the payloads).  A payload that is a Python list is
unhashable, so `set(...)` raises `TypeError` as soon as one occurs. -/
def setOfValues : List (ℕ × Payload) → Except PyError (Finset ℕ)
  | [] => .ok ∅
  | (_, Payload.single n) :: rest => (setOfValues rest).map (insert n)
  | (_, Payload.chordList _) :: _ => .error .typeError

/-- measure.py lines 182-198, `VoiceBoundMeasure.__iter__`.  For each
`(offset, chord)` of the dict in insertion order, a non-list payload is wrapped
in a singleton list, and a `Chord` is yielded with
`self.stressor.of(offset, all_offsets)` as its intensity. -/
def VoiceBoundMeasure.events (v : VoiceBoundMeasure) : Except PyError (List ChordEvent) :=
  (setOfValues v.chords).map fun all_offsets =>
    v.chords.map fun oc =>
      { measure_offset := v.measure.offset
        offset := oc.1
        voice := v.voice
        stress := v.stressor.of (oc.1 : ℤ) (some all_offsets)
        notes := match oc.2 with
          | .single note => [note]
          | .chordList notes => notes }

/-! ## Concrete instances used by the witnesses and counterexamples -/

/-- A stress curve with cumulative length 4 whose weight lookup answers 0.2 at
position 0 and 0.9 at position 1 (the two boundary samples of the spec's
example). -/
noncomputable def stressorC3 : Stressor :=
  ⟨4, fun k _ => if k = 0 then 0.2 else if k = 1 then 0.9 else 0⟩

/-- The measure of the spec's §8 example: tick length 4, no cut, constant tempo
0.5 s per tick, lower bound (1,1), upper bound (2,1). -/
noncomputable def measureC3 : Measure :=
  ⟨(0.5, 1), stressorC3, 0, 4, 0, some (1, 1), some (2, 1)⟩

/-- A stress curve with cumulative length 4 and a constant weight lookup. -/
def stressorConst : Stressor := ⟨4, fun _ _ => 0⟩

/-- A measure with tick length 4, no cut, constant tempo 0.5 s per tick. -/
def measureC4 : Measure :=
  ⟨(0.5, 1), stressorConst, 0, 4, 0, some (1, 1), some (1, 1)⟩

/-- `measureC4` with a positive `measure_cut` of 2 (a minimum-offset measure). -/
def measureC4cut : Measure := { measureC4 with measure_cut := 2 }

/-- A stress curve whose two-argument lookup returns the sum of the offered
set, so that which set reaches it is observable in the emitted intensity. -/
def stressorSum : Stressor :=
  ⟨4, fun _ s => (((s.getD ∅).sum id : ℕ) : ℝ)⟩

/-- A base measure for the voice-timeline example. -/
def measureC5 : Measure :=
  ⟨(0.5, 1), stressorSum, 0, 4, 0, some (1, 1), some (1, 1)⟩

/-- A voice-bound measure whose chords map tick offset 0 to note 10 and tick
offset 2 to note 20. -/
def vbmC5 : VoiceBoundMeasure :=
  ⟨measureC5, 7, stressorSum, some (1, 1), some (1, 1),
    [(0, .single 10), (2, .single 20)]⟩

/-! ## Theorems -/

/-- C1: for every pair of consecutive measures, the later measure's offset
equals the earlier measure's offset plus the seconds value that
`calculate_seconds_from_ticks` returns for the earlier measure's tick length —
measures chain strictly sequentially with no overlap and no gaps. -/
theorem measure_offset_chain (previous : Measure) (mc : Option ℤ)
    (sp : Option Stressor) (tpm : Option ℤ) (lo hi : Option StressArg) :
    (Measure.mkNext previous mc sp tpm lo hi).map Measure.offset
      = (previous.calculate_seconds_from_ticks previous.length none).map
          (fun s => previous.offset + s.1) := by
  unfold Measure.mkNext
  cases h : previous.calculate_seconds_from_ticks previous.length none <;>
    simp [h, Except.map]

/-- Core monotonicity fact behind C2: for a positive base different from 1 and
a positive cumulative length, `t ↦ (gf ^ (t/L) - 1) / (gf ^ (1/L) - 1)` grows
strictly, whether the tempo accelerates or decelerates. -/
theorem geometric_ratio_strict_mono (gf L s t : ℝ) (hgf : 0 < gf) (hne : gf ≠ 1)
    (hL : 0 < L) (hst : s < t) :
    (gf ^ (s * (1 / L)) - 1) / (gf ^ (1 / L) - 1)
      < (gf ^ (t * (1 / L)) - 1) / (gf ^ (1 / L) - 1) := by
  have hinv : 0 < 1 / L := by positivity
  have hmul : s * (1 / L) < t * (1 / L) := by
    exact mul_lt_mul_of_pos_right hst hinv
  rcases lt_or_gt_of_ne hne with hlt | hgt
  · -- decelerating base below one: numerator decreases, denominator is negative
    have hnum : gf ^ (t * (1 / L)) < gf ^ (s * (1 / L)) :=
      Real.rpow_lt_rpow_of_exponent_gt hgf hlt hmul
    have hden : gf ^ (1 / L) - 1 < 0 := by
      have := Real.rpow_lt_one hgf.le hlt hinv
      linarith
    exact (div_lt_div_right_of_neg hden).mpr (by linarith)
  · -- accelerating base above one: numerator increases, denominator is positive
    have hnum : gf ^ (s * (1 / L)) < gf ^ (t * (1 / L)) :=
      Real.rpow_lt_rpow_of_exponent_lt hgt hmul
    have hden : 0 < gf ^ (1 / L) - 1 := by
      have := Real.one_lt_rpow hgt hinv
      linarith
    exact (div_lt_div_iff_of_pos_right hden).mpr (by linarith)

/-- C2: for a tempo with growth factor other than 1, positive base seconds per
tick and positive growth factor, the `seconds` function computed inside
`calculate_seconds_from_ticks` satisfies `seconds 0 = 0` and is strictly
monotonic in the tick argument over `[0, cumulativeLength]` (for any call
offset). -/
theorem seconds_zero_and_strict_mono (spt gf L off : ℝ) (hspt : 0 < spt)
    (hgf : 0 < gf) (hne : gf ≠ 1) (hL : 0 < L) :
    secondsAux spt gf (1 / L) 0 0 = 0 ∧
      StrictMonoOn (secondsAux spt gf (1 / L) off) (Set.Icc 0 L) := by
  constructor
  · simp [secondsAux, hne, Real.rpow_zero]
  · intro a _ b _ hab
    have hsum : a + off < b + off := by linarith
    have hcore := geometric_ratio_strict_mono gf L (a + off) (b + off) hgf hne hL hsum
    simpa [secondsAux, hne] using (mul_lt_mul_left hspt).mpr hcore

/-- Witness for C2 at base 1 s/tick, growth factor 2, cumulative length 4,
call offset 0. -/
theorem seconds_zero_and_strict_mono_witness :
    (0:ℝ) < 1 ∧ (0:ℝ) < 2 ∧ (2:ℝ) ≠ 1 ∧ (0:ℝ) < 4 ∧
      (secondsAux 1 2 (1 / 4) 0 0 = 0 ∧
        StrictMonoOn (secondsAux 1 2 (1 / 4) 0) (Set.Icc 0 4)) :=
  ⟨by norm_num, by norm_num, by norm_num, by norm_num,
    seconds_zero_and_strict_mono 1 2 4 0 (by norm_num) (by norm_num)
      (by norm_num) (by norm_num)⟩

/-- C3: for every measure with both bounds set, `stress_of_tick tick` equals
`lower * (upper/lower) ^ weightAt (round progress)` with
`progress = tick / cumulativeLength`, `lower = lowerBase * lowerGrowth ^
progress` and `upper = upperBase * upperGrowth ^ progress`. -/
theorem stress_of_tick_eq (m : Measure) (tick ls0 lf us0 uf : ℝ)
    (hl : m.lower_stress_bound = some (ls0, lf))
    (hu : m.upper_stress_bound = some (us0, uf)) :
    m.stress_of_tick tick = .ok
      ((ls0 * lf ^ (tick / m.stressor.cumlen)) *
        ((us0 * uf ^ (tick / m.stressor.cumlen))
            / (ls0 * lf ^ (tick / m.stressor.cumlen)))
          ^ (m.stressor.of (pyRound (tick / m.stressor.cumlen)) none)) := by
  simp [Measure.stress_of_tick, hl, hu]

/-- Witness for C3 on the spec's example measure: bounds (1,1) and (2,1),
cumulative length 4, weights 0.2 at rounded progress 0 and 0.9 at rounded
progress 1, giving `stressOfTick 0 = 1 * (2/1) ^ 0.2` and
`stressOfTick 4 = 1 * (2/1) ^ 0.9`. -/
theorem stress_of_tick_eq_witness :
    measureC3.stress_of_tick 0 = .ok (1 * ((2:ℝ) / 1) ^ (0.2:ℝ)) ∧
      measureC3.stress_of_tick 4 = .ok (1 * ((2:ℝ) / 1) ^ (0.9:ℝ)) := by
  constructor
  · rw [stress_of_tick_eq measureC3 0 1 1 2 1 rfl rfl]
    norm_num [measureC3, stressorC3, pyRound, Int.fract_zero, Real.one_rpow]
  · rw [stress_of_tick_eq measureC3 4 1 1 2 1 rfl rfl]
    norm_num [measureC3, stressorC3, pyRound, Int.fract_one, Real.one_rpow]

/-- C4 (code bug): on a measure of tick length 4, an offset of 5 makes
`calculate_seconds_from_ticks` fail — but with `NameError` (the raise statement
`raise ValueError("Offset exceeding " + max_offset)` references the unbound
name `max_offset`), not the claimed RangeError/ValueError; with a positive
`measure_cut` of 2 an offset of 1 fails with `TypeError` (the message
concatenates a str with an int), not ValueError; inside the bounds the call
succeeds. -/
theorem calc_range_error_eval :
    measureC4.calculate_seconds_from_ticks 5 none = .error .nameError ∧
      measureC4cut.calculate_seconds_from_ticks 1 none = .error .typeError ∧
      measureC4cut.calculate_seconds_from_ticks 3 none = .ok (1.5, none) := by
  refine ⟨?_, ?_, ?_⟩ <;>
    norm_num [Measure.calculate_seconds_from_ticks, measureC4, measureC4cut,
      stressorConst, secondsAux]

/-- C5 (code bug): iterating the voice-bound measure whose chords map tick
offset 0 to note 10 and tick offset 2 to note 20 builds `all_offsets` from the
dict VALUES — `{10, 20}`, the note payloads — not from the tick offsets
`{0, 2}`; with a weight lookup that sums the offered set, both emitted events
carry intensity `of(offset, {10, 20}) = 30`, where the claim predicts
`of(0, {0, 2}) = 2` for the first event. -/
theorem vbm_all_offsets_eval :
    setOfValues vbmC5.chords = .ok ({10, 20} : Finset ℕ) ∧
      ({10, 20} : Finset ℕ) ≠ ({0, 2} : Finset ℕ) ∧
      (VoiceBoundMeasure.events vbmC5).map (fun l => l.map ChordEvent.stress)
        = .ok [30, 30] ∧
      (30 : ℝ) ≠ 2 := by
  refine ⟨?_, by decide, ?_, by norm_num⟩
  · simp [vbmC5, setOfValues, Except.map]
  · simp [VoiceBoundMeasure.events, vbmC5, setOfValues, stressorSum, Except.map]
    norm_num

/-- C6 counterexample: `stress_range` applied to the explicit tuple pair
(2, 3) returns Python `None` — it does not return the claimed pair
`(2, 3/2)`. -/
theorem stress_range_tuple_counterexample :
    stress_range (.tup 2 3) = none ∧
      (none : Option (ℝ × ℝ)) ≠ some ((2:ℝ), (3:ℝ) / 2) := by
  exact ⟨rfl, by simp⟩

/-- C6 amended: `stress_range` maps an int `n` to `(n, 1)` and a string a-b or
a list `[a, b]` to `(a, b/a)`; an explicit tuple pair satisfies neither
`isinstance` branch, so the function falls through and returns `None`. -/
theorem stress_range_amended (n a b : ℤ) (x y : ℝ) :
    stress_range (.int n) = some ((n:ℝ), 1) ∧
      stress_range (.str a b) = some ((a:ℝ), (b:ℝ) / (a:ℝ)) ∧
      stress_range (.lst x y) = some (x, y / x) ∧
      stress_range (.tup x y) = none := by
  refine ⟨rfl, ?_, ?_, rfl⟩ <;> simp [stress_range, mul_one]

/-- C7 (code bug): constructing a `Modulation` with neither frequency nor
factor fails (the plain `Exception` that the spec's taxonomy calls
ConfigurationError), and with a set frequency `modulate` resolves it — but in
the factor-only configuration `modulate` crashes with `AttributeError`, because
`self.frequency or self.factor * freq` reads the never-assigned
`self.frequency` attribute instead of falling back to `factor * freq`. -/
theorem modulation_factor_branch_eval :
    ((Modulation.init none 1 1 0 true (some 2) none).bind
        fun mo => mo.modulate 0 (some 440)) = .error .attributeError ∧
      Modulation.init none 1 1 0 true none none = .error .exceptionBase ∧
      ((Modulation.init (some 5) 1 1 0 true none none).bind
        fun mo => mo.resolve_frequency none) = .ok 5 := by
  refine ⟨?_, ?_, ?_⟩ <;>
    norm_num [Modulation.init, Modulation.modulate, Modulation.resolve_frequency,
      Except.bind, Except.map]

/-- C8 (code bug): constructing the 3-D operand the claim needs always fails —
`Point3D(1, 1, symp=Point2D(5, 5))` raises `TypeError` (and a missing envelope
raises the explicit `AttributeError`) — so the claim's 3-D half is
unexhibitable; on the 2-D points, the only constructible ones,
`weighted_average a 0 b = a` and `weighted_average a 1 b = b` hold for all
`a`, `b`. -/
theorem weighted_average_boundary_eval :
    Point3D_new 1 1 (some ⟨5, 5⟩) = .error .typeError ∧
      Point3D_new 1 1 none = .error .attributeError ∧
      ∀ a b : Point,
        Point.weighted_average a 0 b = a ∧ Point.weighted_average a 1 b = b := by
  refine ⟨rfl, rfl, fun a b => ⟨?_, ?_⟩⟩ <;>
    · cases a
      cases b
      simp only [Point.weighted_average, Point.mk.injEq]
      constructor <;> ring

/-- C9 (code bug): indexing a constructible (2-D) point at 0 and 1 yields `x`
and `y` and its length is 2 — but index 2 does NOT raise `IndexError`: line 35
of point.py reads `return IndexError`, so the `IndexError` class object is
returned as an ordinary value; and the claim's 3-D clauses (index 2 yielding
the nested envelope, length 3) are unexhibitable, `Point3D` construction
always raising. -/
theorem point_getitem_eval :
    Point.getitem ⟨1, 2⟩ 0 = .val 1 ∧
      Point.getitem ⟨1, 2⟩ 1 = .val 2 ∧
      Point.getitem ⟨1, 2⟩ 2 = .indexErrorReturned ∧
      Point.len ⟨1, 2⟩ = 2 ∧
      Point3D_new 1 2 (some ⟨3, 4⟩) = .error .typeError :=
  ⟨rfl, rfl, rfl, rfl, rfl⟩

/-- C10 counterexample: supplying frequency 3 together with factor 0 succeeds,
and the frequency `modulate` resolves is 3 — the zero factor was replaced by 1
by `factor or 1` — not the claimed product `3 * 0`. -/
theorem modulation_factor_zero_counterexample :
    ((Modulation.init (some 3) 1 1 0 false (some 0) none).bind
        fun mo => mo.resolve_frequency (some 440)) = .ok 3 ∧
      (3:ℝ) ≠ 3 * 0 := by
  constructor
  · norm_num [Modulation.init, Modulation.resolve_frequency, Except.bind]
  · norm_num

/-- C10 amended: if both a non-zero frequency and a NON-ZERO factor are
supplied, construction succeeds and the frequency `modulate` resolves is the
product `frequency * factor`; a zero factor is treated as absent by
`factor or 1`, leaving the frequency unscaled. -/
theorem modulation_frequency_times_factor (v fa b m s : ℝ) (ov : Bool)
    (fn : Option (ℝ → ℝ → ℝ → ℝ)) (ext : Option ℝ)
    (hv : v ≠ 0) (hfa : fa ≠ 0) :
    (Modulation.init (some v) b m s ov (some fa) fn).bind
        (fun mo => mo.resolve_frequency ext) = .ok (v * fa) := by
  simp [Modulation.init, Modulation.resolve_frequency, hv, hfa,
    mul_ne_zero hv hfa, Except.bind]

/-- Witness for C10 at frequency 3 and factor 2. -/
theorem modulation_frequency_times_factor_witness :
    (3:ℝ) ≠ 0 ∧ (2:ℝ) ≠ 0 ∧
      (Modulation.init (some 3) 1 1 0 true (some 2) none).bind
          (fun mo => mo.resolve_frequency (some 440)) = .ok ((3:ℝ) * 2) :=
  ⟨by norm_num, by norm_num,
    modulation_frequency_times_factor 3 2 1 1 0 true none (some 440)
      (by norm_num) (by norm_num)⟩

end Melosynth
